import Mathlib

/-!
Verification of the geo snapshot export pipeline (`geo_snapshot_export.py`).

The development embeds the filter-combination aggregation pipeline of the
exporter as executable Lean definitions:

* the transaction data model (`Row`) with the columns the pipeline reads;
* the Filter Combinator (`FTB_OPTIONS`, `RENEWAL_OPTIONS`, `combos`,
  `applyCombinationFilters`) mirroring the per-combination view derivation
  in `generate_figures`;
* the registry key generation of `generate_figures` (`comboKeys`,
  `mapKeys`, `generatedKeys`);
* the client-facing chart lookup `get_all` of `build_html`;
* the population-weighted city merge of `ensure_map_caches` (`agg_plz`);
* the city performance table of `generate_figures` (`city_cust`,
  `city_join`, `city_tbl`) and the revenue-per-customer column `spc`.

Real numbers that pandas holds as floats are modelled as exact rationals
(`ℚ`), with pandas `NaN` modelled as `Option.none` where a column can hold
it.  `round(x, 2)` is modelled as exact round-half-to-even at two decimal
places (`round2`).
-/

/-- One row of the transactional dataset `df`, with the columns read by
`generate_figures` and `ensure_map_caches`.  `channel_type` and `platform`
are `Option`-valued because the source calls `dropna` on them. -/
structure Row where
  customer_id : Nat
  ftb_rb : String
  is_renewal : Int
  city : String
  plz_three_digits : String
  variant_price_after_discount : ℚ
  channel_type : Option String
  platform : Option String
deriving DecidableEq

/-- Round half to even at integer precision, the rounding used by
pandas/numpy `.round`. -/
def roundHalfEven (x : ℚ) : ℤ :=
  let f := Int.floor x
  if x - f < 1 / 2 then f
  else if 1 / 2 < x - f then f + 1
  else if f % 2 = 0 then f else f + 1

/-- Source: `.round(2)`: round half to even at two decimal places. -/
def round2 (x : ℚ) : ℚ :=
  (roundHalfEven (x * 100) : ℚ) / 100

/-- Source: `nunique`: the number of distinct values in a column. -/
def nunique (ids : List Nat) : Nat :=
  ids.dedup.length

/-! ## Filter Combinator -/

/-- Source: `FTB_OPTIONS = [('All', 'all'), ('FTB', 'ftb'), ('RB', 'rb')]`. -/
def FTB_OPTIONS : List (String × String) :=
  [("All", "all"), ("FTB", "ftb"), ("RB", "rb")]

/-- Source: `RENEWAL_OPTIONS = [('Include', 'incl'), ('Exclude', 'excl')]`. -/
def RENEWAL_OPTIONS : List (String × String) :=
  [("Include", "incl"), ("Exclude", "excl")]

/-- The nested loop `for ftb_label, ftb_tag in FTB_OPTIONS: for ren_label,
ren_tag in RENEWAL_OPTIONS:` of `generate_figures`, as the list of visited
(customer-type option, renewal option) pairs. -/
def combos : List ((String × String) × (String × String)) :=
  FTB_OPTIONS.flatMap (fun f => RENEWAL_OPTIONS.map (fun r => (f, r)))

/-- The filter application of `generate_figures` (lines 243-253): starting
from three copies of `df`, apply the customer-type filter to `dff` only,
then, when renewals are excluded, drop renewal rows from all three of
`dff`, `dff_all` and `dff_base`.  Returns `(dff, dff_all, dff_base)`. -/
def applyCombinationFilters (df : List Row) (ftb_label ren_label : String) :
    List Row × List Row × List Row :=
  let dff := df
  let dff_all := df
  let dff_base := df
  let dff := if ftb_label ≠ "All" then dff.filter (fun r => r.ftb_rb == ftb_label) else dff
  let dff := if ren_label = "Exclude" then dff.filter (fun r => r.is_renewal != 1) else dff
  let dff_all := if ren_label = "Exclude" then dff_all.filter (fun r => r.is_renewal != 1) else dff_all
  let dff_base := if ren_label = "Exclude" then dff_base.filter (fun r => r.is_renewal != 1) else dff_base
  (dff, dff_all, dff_base)

/-- Modelled from the spec: the customer-type axis filter on its own
("filtered by customer-type"). -/
def customerTypeFilter (ftb_label : String) (df : List Row) : List Row :=
  if ftb_label = "All" then df else df.filter (fun r => r.ftb_rb == ftb_label)

/-- Modelled from the spec: the renewal axis filter on its own ("when
renewal is Exclude, filtered by renewal"). -/
def renewalFilter (ren_label : String) (df : List Row) : List Row :=
  if ren_label = "Exclude" then df.filter (fun r => r.is_renewal != 1) else df

/-! ## Registry key generation (`generate_figures`) -/

/-- The two distance-grouping choices iterated by
`for cm in ['6 Distance Bands', '3 Geo Tiers']`. -/
def colorModes : List String :=
  ["6 Distance Bands", "3 Geo Tiers"]

/-- Source: `tag = '6band' if '6' in cm else '3tier'`. -/
def tagOf (cm : String) : String :=
  if cm.data.contains '6' then "6band" else "3tier"

/-- The grouping tags in loop order. -/
def tags : List String :=
  colorModes.map tagOf

/-- The volume-metric loop `for metric in ['customers', 'revenue', 'spc']`. -/
def volumeMetrics : List String :=
  ["customers", "revenue", "spc"]

/-- Section 2 ("Local Impact") chart keys per combination, as
(metric root, grouping tag) pairs in figure-insertion order. -/
def sec2Charts : List (String × String) :=
  colorModes.flatMap (fun cm =>
    [("comp_pct", tagOf cm)] ++
    volumeMetrics.map (fun metric => ("comp_" ++ metric, tagOf cm)) ++
    [("fts", tagOf cm), ("ltv", tagOf cm)])

/-- Section 3 ("Region Activation") chart keys per combination. -/
def sec3Charts : List (String × String) :=
  colorModes.flatMap (fun cm =>
    [("pop_house", tagOf cm), ("act_weekly", tagOf cm), ("act_cumul", tagOf cm)])

/-- Section 4 ("Geo Mix by House") chart keys per combination. -/
def sec4Charts : List (String × String) :=
  colorModes.map (fun cm => ("geo_mix", tagOf cm))

/-- Section 5 ("Platform Insights") chart keys per combination. -/
def sec5Charts : List (String × String) :=
  colorModes.map (fun cm => ("platform", tagOf cm))

/-- The fixed candidate list `['Meta', 'Google', 'Direct', 'Organic']`. -/
def defaultPlatformCandidates : List String :=
  ["Meta", "Google", "Direct", "Organic"]

/-- Whether section 5 emits its charts for a strict view `dff`: the rows
with both `channel_type` and `platform` present (`dropna`) are nonempty and
at least one candidate platform occurs among them (`if default_platforms:`). -/
def hasPlatformCharts (dff : List Row) : Bool :=
  let dff_cp := dff.filter (fun r => r.channel_type.isSome && r.platform.isSome)
  !dff_cp.isEmpty &&
    defaultPlatformCandidates.any (fun p => dff_cp.any (fun r => r.platform == some p))

/-- Source: `suffix = f'__{ftb_tag}__{ren_tag}'` for a combination. -/
def comboSuffix (c : (String × String) × (String × String)) : String :=
  "__" ++ c.1.2 ++ "__" ++ c.2.2

/-- The registry keys inserted into `figures` for one filter combination:
none at all when the strict view is empty (`if dff.empty: continue`),
otherwise the section 2-5 chart keys, with the section 5 keys conditional
on platform data being present.  (`act_by_house` is inserted between the
section 3 and section 4 loops.) -/
def comboKeys (df : List Row) (c : (String × String) × (String × String)) :
    List String :=
  if ((applyCombinationFilters df c.1.1 c.2.1).1).isEmpty then []
  else
    ((sec2Charts ++ sec3Charts).map
      (fun mt => mt.1 ++ ("_" ++ mt.2 ++ comboSuffix c))) ++
    ["act_by_house" ++ comboSuffix c] ++
    (sec4Charts.map (fun mt => mt.1 ++ ("_" ++ mt.2 ++ comboSuffix c))) ++
    (if hasPlatformCharts ((applyCombinationFilters df c.1.1 c.2.1).1) then
      sec5Charts.map (fun mt => mt.1 ++ ("_" ++ mt.2 ++ comboSuffix c))
    else [])

/-- The filter-independent map keys, inserted once before the combination
loop when the corresponding map dataframe is available. -/
def mapKeys (hasCityMap hasPlzMap : Bool) : List String :=
  (if hasCityMap then ["city_map_pop"] else []) ++
  (if hasPlzMap then
    ["customers", "rev_per_1k", "activation"].map (fun m => "plz_map_" ++ m)
  else [])

/-- All registry keys of one `generate_figures` run. -/
def generatedKeys (hasCityMap hasPlzMap : Bool) (df : List Row) : List String :=
  mapKeys hasCityMap hasPlzMap ++ combos.flatMap (fun c => comboKeys df c)

/-- The six non-empty filter suffixes, in combination order. -/
def filterSuffixes : List String :=
  combos.map comboSuffix

/-- The registry-key grammar of the output contract:
`<metric>_<groupingTag><filterSuffix>` with a non-empty metric name,
`groupingTag ∈ {6band, 3tier}` and the suffix drawn from the seven-element
suffix set (the empty suffix included). -/
def ParsableKey (k : String) : Prop :=
  ∃ metric tag sfx, tag ∈ tags ∧ sfx ∈ ("" :: filterSuffixes) ∧ metric ≠ "" ∧
    k = metric ++ ("_" ++ tag ++ sfx)

/-! ## Client-facing chart lookup (`build_html`) -/

/-- Source: `fig_to_div` for the non-mapbox charts that `get_all` emits: the figure
wrapped in a `wrap_<id>` div, hidden or shown.  The inner Plotly markup
(`fig.to_html`) is produced by the external plotting capability and is
abstracted as a fixed body; attribute quoting is elided. -/
def fig_to_div (div_id : String) (hidden : Bool) : String :=
  let style := if hidden then "display:none" else "display:block"
  "<div id=wrap_" ++ div_id ++ " style=" ++ style ++ ">[figure]</div>"

/-- The graceful placeholder emitted when a chart has no variants at all. -/
def chart_not_available : String :=
  "<p style=color:#6b6ba3;font-size:0.8rem>Chart not available (missing cache data)</p>"

/-- One iteration of the `get_all` accumulation loop: append the chart div
for this filter combination when its key is in `figures`. -/
def get_all_step (figures : List String) (base_key : String) (base_hidden : Bool)
    (html : String) (c : (String × String) × (String × String)) : String :=
  let full_key := base_key ++ comboSuffix c
  let is_default_filter := c.1.2 == "all" && c.2.2 == "incl"
  let hidden := !(is_default_filter && !base_hidden)
  if full_key ∈ figures then html ++ fig_to_div full_key hidden else html

/-- Source: `get_all`: generate all filter variants of a chart, falling back to the
"Chart not available" placeholder when no variant exists. -/
def get_all (figures : List String) (base_key : String) (base_hidden : Bool) :
    String :=
  let html := combos.foldl (get_all_step figures base_key base_hidden) ""
  if html = "" then chart_not_available else html

/-- A dataset on which every filter combination has a non-empty strict view
and platform charts are emitted: one non-renewal FTB row and one
non-renewal RB row, both with a candidate platform. -/
def dfFull : List Row :=
  [{ customer_id := 1, ftb_rb := "FTB", is_renewal := 0, city := "Berlin",
     plz_three_digits := "101", variant_price_after_discount := 10,
     channel_type := some "Paid Social", platform := some "Meta" },
   { customer_id := 2, ftb_rb := "RB", is_renewal := 0, city := "Hamburg",
     plz_three_digits := "201", variant_price_after_discount := 20,
     channel_type := some "Paid Search", platform := some "Google" }]

/-! ## Distance/Geo Normalizer (`ensure_map_caches`) -/

/-- One row of `plz_df` after the left merge of the coordinate seed with
the population seed: coordinates are always present, `population` is `NaN`
(`none`) when the PLZ code is missing from the population table. -/
structure PlzGeo where
  plz_three_digits : String
  latitude : ℚ
  longitude : ℚ
  population : Option ℚ
deriving DecidableEq

/-- Source: `plz_df['plz_three_digits'].map(merge_map).fillna(plz_df['plz_three_digits'])`:
the canonical grouping key of a PLZ code under the merge table. -/
def group_key (merge_map : List (String × String)) (plz : String) : String :=
  (merge_map.lookup plz).getD plz

/-- The constituent rows of one merged group: all of `plz_df` whose
grouping key is `gk` (the rows pandas `groupby('group_key')` collects). -/
def constituentGroups (merge_map : List (String × String)) (plz_df : List PlzGeo)
    (gk : String) : List PlzGeo :=
  plz_df.filter (fun r => group_key merge_map r.plz_three_digits == gk)

/-- One output row of the `agg_plz` groupby. -/
structure AggPlzRow where
  group_key : String
  latitude : Option ℚ
  longitude : Option ℚ
  population : ℚ
deriving DecidableEq

/-- The `agg_plz` groupby of `ensure_map_caches`: per grouping key, sum the
weighted-coordinate columns `w_lat = latitude * population.fillna(0)` and
`w_lon` and the population (pandas sums skip `NaN`, i.e. treat it as 0),
then divide by the population sum with `.replace(0, nan)` applied first, so
a zero-population group yields `NaN` (`none`) coordinates instead of a
division error.  The group enumeration order (pandas sorts group keys) is
immaterial to the properties proved below. -/
def agg_plz (merge_map : List (String × String)) (plz_df : List PlzGeo) :
    List AggPlzRow :=
  ((plz_df.map (fun r => group_key merge_map r.plz_three_digits)).dedup).map
    (fun gk =>
      { group_key := gk,
        latitude :=
          (if ((constituentGroups merge_map plz_df gk).map
              (fun r => r.population.getD 0)).sum = 0 then none
            else some (((constituentGroups merge_map plz_df gk).map
              (fun r => r.population.getD 0)).sum)).map
            (fun pop => ((constituentGroups merge_map plz_df gk).map
              (fun r => r.latitude * r.population.getD 0)).sum / pop),
        longitude :=
          (if ((constituentGroups merge_map plz_df gk).map
              (fun r => r.population.getD 0)).sum = 0 then none
            else some (((constituentGroups merge_map plz_df gk).map
              (fun r => r.population.getD 0)).sum)).map
            (fun pop => ((constituentGroups merge_map plz_df gk).map
              (fun r => r.longitude * r.population.getD 0)).sum / pop),
        population := ((constituentGroups merge_map plz_df gk).map
          (fun r => r.population.getD 0)).sum })

/-- The per-PLZ transaction group of `ensure_map_caches`: transaction rows
whose merge-normalised PLZ code (`txn['plz_three_digits'].replace(merge_map)`)
equals `p`. -/
def plz_group (merge_map : List (String × String)) (df : List Row) (p : String) :
    List Row :=
  (df.map (fun r => { r with plz_three_digits := group_key merge_map r.plz_three_digits })).filter
    (fun r => r.plz_three_digits == p)

/-- Source: `customers=('customer_id', 'nunique')` of the per-PLZ groupby. -/
def plz_customers (merge_map : List (String × String)) (df : List Row)
    (p : String) : Nat :=
  nunique ((plz_group merge_map df p).map (fun r => r.customer_id))

/-- Source: `channel_platform = channel_type + ' | ' + platform` where both are
present. -/
def channel_platform (r : Row) : Option String :=
  match r.channel_type, r.platform with
  | some ct, some p => some (ct ++ " | " ++ p)
  | _, _ => none

/-- The per-channel-platform group of section 5: rows of the strict view
with channel and platform present, platform among the candidates, and the
given combined `channel_platform` label. -/
def cp_group (dff : List Row) (cp : String) : List Row :=
  ((dff.filter (fun r => r.channel_type.isSome && r.platform.isSome)).filter
    (fun r => defaultPlatformCandidates.any (fun p => r.platform == some p))).filter
    (fun r => channel_platform r == some cp)

/-- Source: `groupby('channel_platform')['customer_id'].nunique()`. -/
def cp_customers (dff : List Row) (cp : String) : Nat :=
  nunique ((cp_group dff cp).map (fun r => r.customer_id))

/-! ## City performance table (`generate_figures`) and `spc` -/

/-- One row of the `city_population.csv` table. -/
structure CityPop where
  city : String
  population : ℚ
deriving DecidableEq

/-- One row of `city_cust = dff.groupby('city').agg(customers=..., revenue=...)`. -/
structure CityCust where
  city : String
  customers : Nat
  revenue : ℚ
deriving DecidableEq

/-- The per-city transaction aggregate of the city performance table:
distinct customers and summed revenue per observed city.  (Pandas sorts the
group keys; the group order is immaterial because the join looks cities up
by name.) -/
def city_cust (dff : List Row) : List CityCust :=
  ((dff.map (fun r => r.city)).dedup).map (fun c =>
    { city := c,
      customers := nunique ((dff.filter (fun r => r.city == c)).map
        (fun r => r.customer_id)),
      revenue := ((dff.filter (fun r => r.city == c)).map
        (fun r => r.variant_price_after_discount)).sum })

/-- One row of the city performance table. -/
structure CityRow where
  city : String
  population : ℚ
  customers : Nat
  revenue : ℚ
  activation : ℚ
  rev_per_1k : ℚ
deriving DecidableEq

/-- Source: `city_tbl = city_pop.merge(city_cust, on='city', how='inner')` with the
`activation` and `rev_per_1k` columns added: an inner join that keeps the
left (population-table) row order and drops every city without observed
transactions. -/
def city_join (city_pop : List CityPop) (dff : List Row) : List CityRow :=
  city_pop.filterMap (fun p =>
    ((city_cust dff).find? (fun x => x.city == p.city)).map (fun x =>
      { city := p.city, population := p.population,
        customers := x.customers, revenue := x.revenue,
        activation := round2 ((x.customers : ℚ) / (p.population / 1000)),
        rev_per_1k := round2 (x.revenue / (p.population / 1000)) }))

/-- Source: `sort_values('population', ascending=False)` comparison. -/
def popDescOrder (a b : CityRow) : Prop :=
  b.population ≤ a.population

instance : DecidableRel popDescOrder :=
  fun a b => inferInstanceAs (Decidable (b.population ≤ a.population))

instance : IsTotal CityRow popDescOrder :=
  ⟨fun a b => le_total b.population a.population⟩

instance : IsTrans CityRow popDescOrder :=
  ⟨fun _ _ _ hab hbc => le_trans hbc hab⟩

/-- Source: `city_tbl.sort_values('population', ascending=False).head(20)`: the
city performance table, sorted by population descending after the join and
truncated to 20 rows.  (The model uses a stable sort; pandas' default sort
is unstable, but no stated property depends on the order of
equal-population ties.) -/
def city_tbl (city_pop : List CityPop) (dff : List Row) : List CityRow :=
  (List.insertionSort popDescOrder (city_join city_pop dff)).take 20

/-- Source: `city_df['revenue'] / city_df['customers'].replace(0, nan)`: division
whose result is `NaN` (`none`) when the customer count is zero. -/
def divByCustomers (revenue : ℚ) (customers : Nat) : Option ℚ :=
  if customers = 0 then none else some (revenue / customers)

/-- Source: `spc = (revenue / customers.replace(0, nan)).fillna(0).round(2)`. -/
def spc (revenue : ℚ) (customers : Nat) : ℚ :=
  round2 ((divByCustomers revenue customers).getD 0)

/-! ## Whole-run output (for determinism) -/

/-- The `city_tables` dict of `generate_figures`: one city performance
table per filter combination whose strict view is non-empty, keyed by the
filter suffix. -/
def city_tables (city_pop : List CityPop) (df : List Row) :
    List (String × List CityRow) :=
  combos.filterMap (fun c =>
    if ((applyCombinationFilters df c.1.1 c.2.1).1).isEmpty then none
    else some (comboSuffix c,
      city_tbl city_pop ((applyCombinationFilters df c.1.1 c.2.1).1)))

/-- One full `generate_figures` run, abstracted to its registry keys and
the city-table aggregates computed in this module.  A pure function of the
input data: there is no run-specific state. -/
def pipelineRun (hasCityMap hasPlzMap : Bool) (df : List Row)
    (city_pop : List CityPop) :
    List String × List (String × List CityRow) :=
  (generatedKeys hasCityMap hasPlzMap df, city_tables city_pop df)

/-! ## Sample data for concrete witnesses -/

/-- Sample merge table: two PLZ groups merged into one city. -/
def sampleMergeMap : List (String × String) :=
  [("101", "Berlin"), ("102", "Berlin")]

/-- Sample coordinate/population rows for the two merged PLZ groups. -/
def samplePlzGeo : List PlzGeo :=
  [{ plz_three_digits := "101", latitude := 1, longitude := 2, population := some 100 },
   { plz_three_digits := "102", latitude := 3, longitude := 4, population := some 300 }]

/-- The merged-city aggregate row for the sample:
latitude (1*100 + 3*300)/400 = 5/2, longitude (2*100 + 4*300)/400 = 7/2. -/
def sampleAggRow : AggPlzRow :=
  { group_key := "Berlin", latitude := some (5 / 2), longitude := some (7 / 2),
    population := 400 }

/-- Sample city population table. -/
def sampleCityPop : List CityPop :=
  [{ city := "Berlin", population := 1000 }, { city := "Hamburg", population := 2000 }]

/-- The Hamburg row of the sample city performance table. -/
def sampleCityRowHamburg : CityRow :=
  { city := "Hamburg", population := 2000, customers := 1, revenue := 20,
    activation := 1 / 2, rev_per_1k := 10 }

/-- The Berlin row of the sample city performance table. -/
def sampleCityRowBerlin : CityRow :=
  { city := "Berlin", population := 1000, customers := 1, revenue := 10,
    activation := 1, rev_per_1k := 10 }

/-- A one-city population table whose activation ratio is not expressible
in two decimal places. -/
def fractionalCityPop : List CityPop :=
  [{ city := "X", population := 3000 }]

/-- A single transaction in that city. -/
def fractionalRow : Row :=
  { customer_id := 1, ftb_rb := "FTB", is_renewal := 0, city := "X",
    plz_three_digits := "301", variant_price_after_discount := 1,
    channel_type := none, platform := none }

/-! ## Theorems -/

/-- C4: the Filter Combinator enumerates exactly the 6 combinations of
the cross-product, with customer-type as the outer loop in order
All, FTB, RB and renewal as the inner loop in order Include, Exclude. -/
theorem combos_enumeration :
    combos =
      [(("All", "all"), ("Include", "incl")), (("All", "all"), ("Exclude", "excl")),
       (("FTB", "ftb"), ("Include", "incl")), (("FTB", "ftb"), ("Exclude", "excl")),
       (("RB", "rb"), ("Include", "incl")), (("RB", "rb"), ("Exclude", "excl"))] ∧
    combos.length = 6 := by
  constructor <;> rfl

/-- C1 (counterexample): the claim that the `base` view (`dff_base`) is
fully unfiltered by the renewal axis is false: for a dataset consisting of
one renewal row and the combination (All, Exclude), the code filters the
renewal row out of `dff_base`, so the base view is not the unfiltered
dataset. -/
theorem base_view_not_unfiltered :
    (applyCombinationFilters
        [{ customer_id := 1, ftb_rb := "FTB", is_renewal := 1, city := "Berlin",
           plz_three_digits := "101", variant_price_after_discount := 10,
           channel_type := none, platform := none }] "All" "Exclude").2.2 ≠
      [{ customer_id := 1, ftb_rb := "FTB", is_renewal := 1, city := "Berlin",
         plz_three_digits := "101", variant_price_after_discount := 10,
         channel_type := none, platform := none }] := by
  decide

/-- C1 (amended): for every filter combination the `strict` view is the
dataset filtered by customer-type and, when renewal is Exclude, also by
renewal; the `renewal_only` view is filtered only by renewal and never by
customer-type; and the `base` view coincides with the `renewal_only` view —
it is never filtered by customer-type, but it *is* filtered by renewal when
renewal is Exclude (it is not fully unfiltered). -/
theorem filter_views_strictness (df : List Row) (ftb_label ren_label : String) :
    (applyCombinationFilters df ftb_label ren_label).1 =
      renewalFilter ren_label (customerTypeFilter ftb_label df) ∧
    (applyCombinationFilters df ftb_label ren_label).2.1 =
      renewalFilter ren_label df ∧
    (applyCombinationFilters df ftb_label ren_label).2.2 =
      renewalFilter ren_label df := by
  unfold applyCombinationFilters customerTypeFilter renewalFilter
  by_cases hf : ftb_label = "All" <;> by_cases hr : ren_label = "Exclude" <;>
    simp [hf, hr]

/-- Two strings concatenate to the empty string only if both are empty. -/
theorem string_append_eq_empty_iff (a b : String) :
    a ++ b = "" ↔ a = "" ∧ b = "" := by
  rw [String.ext_iff, String.ext_iff, String.ext_iff]
  simp [String.data_append]

/-- If `k = m ++ v` then the characters of `v` are a suffix of those of `k`. -/
theorem suffix_data_of_eq_append (k m v : String) (h : k = m ++ v) :
    v.data <:+ k.data :=
  h ▸ ⟨m.data, (String.data_append m v).symm⟩

/-- A chart div is never the empty string. -/
theorem fig_to_div_ne_empty (div_id : String) (hidden : Bool) :
    fig_to_div div_id hidden ≠ "" := by
  unfold fig_to_div
  intro h
  rw [String.ext_iff] at h
  cases hidden <;> simp [String.data_append] at h

/-- A chart div followed by anything is never the placeholder: the second
character of the div markup is `d` where the placeholder has `p`. -/
theorem fig_div_append_ne_placeholder (k : String) (hd : Bool) (t : String) :
    fig_to_div k hd ++ t ≠ chart_not_available := by
  intro h
  rw [String.ext_iff] at h
  unfold fig_to_div chart_not_available at h
  cases hd <;> simp [String.data_append] at h

/-- A fold that conditionally appends non-empty chunks returns the empty
string exactly when it started empty and appended nothing. -/
theorem foldl_guarded_append_eq_empty {α : Type} (p : α → Prop) [DecidablePred p]
    (g : α → String) (hg : ∀ a, g a ≠ "") :
    ∀ (cs : List α) (acc : String),
      (cs.foldl (fun acck c => if p c then acck ++ g c else acck) acc = "" ↔
        acc = "" ∧ ∀ c ∈ cs, ¬ p c) := by
  intro cs
  induction cs with
  | nil => intro acc; simp
  | cons c cs ih =>
    intro acc
    rw [List.foldl_cons]
    by_cases hp : p c
    · rw [if_pos hp, ih]
      rw [string_append_eq_empty_iff]
      constructor
      · rintro ⟨⟨-, hdiv⟩, -⟩
        exact absurd hdiv (hg c)
      · rintro ⟨-, hall⟩
        exact absurd hp (hall c (List.mem_cons_self c cs))
    · rw [if_neg hp, ih]
      constructor
      · rintro ⟨ha, hall⟩
        refine ⟨ha, ?_⟩
        intro x hx
        rcases List.mem_cons.mp hx with rfl | hx'
        · exact hp
        · exact hall x hx'
      · rintro ⟨ha, hall⟩
        exact ⟨ha, fun x hx => hall x (List.mem_cons_of_mem _ hx)⟩

/-- A fold that conditionally appends chunks either returns its accumulator
unchanged, or the accumulator followed by a first appended chunk. -/
theorem foldl_guarded_append_shape {α : Type} (p : α → Prop) [DecidablePred p]
    (g : α → String) :
    ∀ (cs : List α) (acc : String),
      cs.foldl (fun acck c => if p c then acck ++ g c else acck) acc = acc ∨
      ∃ a t, cs.foldl (fun acck c => if p c then acck ++ g c else acck) acc =
        acc ++ (g a ++ t) := by
  intro cs
  induction cs with
  | nil => intro acc; exact Or.inl rfl
  | cons c cs ih =>
    intro acc
    rw [List.foldl_cons]
    by_cases hp : p c
    · rw [if_pos hp]
      rcases ih (acc ++ g c) with h | ⟨a, t, h⟩
      · exact Or.inr ⟨c, "", by rw [h, String.append_empty]⟩
      · exact Or.inr ⟨c, g a ++ t, by rw [h, String.append_assoc]⟩
    · rw [if_neg hp]
      exact ih acc

/-- C2 (amended): when the strict view of a filter combination is
empty, the pipeline registers no figure keys at all for that combination
(and the model is a total function, so no exception is possible); and the
client-facing `get_all` supplies the distinguishable "Chart not available"
placeholder exactly when the chart's key is absent for *all six* filter
combinations — a key absent for only some combinations produces no
placeholder (those filter states simply have no output). -/
theorem empty_strict_skip_and_placeholder :
    (∀ (df : List Row) (c : (String × String) × (String × String)),
      (applyCombinationFilters df c.1.1 c.2.1).1 = [] → comboKeys df c = []) ∧
    (∀ (figures : List String) (base_key : String) (base_hidden : Bool),
      get_all figures base_key base_hidden = chart_not_available ↔
        ∀ s ∈ filterSuffixes, ¬ base_key ++ s ∈ figures) := by
  constructor
  · intro df c h
    simp [comboKeys, h]
  · intro figures base_key base_hidden
    have hfold :
        combos.foldl (get_all_step figures base_key base_hidden) "" = "" ↔
          (("" : String) = "" ∧
            ∀ c ∈ combos, ¬ base_key ++ comboSuffix c ∈ figures) :=
      foldl_guarded_append_eq_empty
        (fun c => base_key ++ comboSuffix c ∈ figures)
        (fun c => fig_to_div (base_key ++ comboSuffix c)
          (!((c.1.2 == "all" && c.2.2 == "incl") && !base_hidden)))
        (fun c => fig_to_div_ne_empty _ _) combos ""
    have hshape :
        combos.foldl (get_all_step figures base_key base_hidden) "" = "" ∨
        ∃ a t, combos.foldl (get_all_step figures base_key base_hidden) "" =
          "" ++ (fig_to_div (base_key ++ comboSuffix a)
            (!((a.1.2 == "all" && a.2.2 == "incl") && !base_hidden)) ++ t) :=
      foldl_guarded_append_shape
        (fun c => base_key ++ comboSuffix c ∈ figures)
        (fun c => fig_to_div (base_key ++ comboSuffix c)
          (!((c.1.2 == "all" && c.2.2 == "incl") && !base_hidden))) combos ""
    have hsuffix : ∀ s ∈ filterSuffixes, ∃ c ∈ combos, comboSuffix c = s := by
      intro s hs
      rcases List.mem_map.mp hs with ⟨c, hc, rfl⟩
      exact ⟨c, hc, rfl⟩
    unfold get_all
    by_cases hempty :
        combos.foldl (get_all_step figures base_key base_hidden) "" = ""
    · rw [if_pos hempty]
      constructor
      · intro _ s hs
        rcases hsuffix s hs with ⟨c, hc, rfl⟩
        exact (hfold.mp hempty).2 c hc
      · intro _
        rfl
    · rw [if_neg hempty]
      constructor
      · intro hplace
        exfalso
        rcases hshape with h | ⟨a, t, h⟩
        · exact hempty h
        · rw [h] at hplace
          rw [String.empty_append] at hplace
          exact fig_div_append_ne_placeholder _ _ _ hplace
      · intro hall
        exfalso
        apply hempty
        apply hfold.mpr
        refine ⟨rfl, ?_⟩
        intro c hc
        exact hall (comboSuffix c) (List.mem_map_of_mem comboSuffix hc)

/-- C2 (witness): a dataset with a single renewal row has an empty
strict view for (All, Exclude) and gets no keys; and with no figures at
all, `get_all` yields the placeholder. -/
theorem empty_strict_skip_witness :
    comboKeys
      [{ customer_id := 1, ftb_rb := "FTB", is_renewal := 1, city := "Berlin",
         plz_three_digits := "101", variant_price_after_discount := 10,
         channel_type := none, platform := none }]
      (("All", "all"), ("Exclude", "excl")) = [] ∧
    get_all [] "comp_pct_6band" false = chart_not_available := by
  constructor
  · exact empty_strict_skip_and_placeholder.1 _ _ (by decide)
  · exact (empty_strict_skip_and_placeholder.2 [] "comp_pct_6band" false).mpr
      (by simp)

set_option maxRecDepth 100000 in
/-- C2 (counterexample): the claim that *every* absent registry key
leads to a placeholder is false: when only the (FTB, Include) variant of
`comp_pct_6band` is absent, the `get_all` output contains no placeholder
at all (the missing filter state gets a blank, not a "no data" notice). -/
theorem absent_key_no_placeholder :
    ¬ ("comp_pct_6band__ftb__incl" ∈ (["comp_pct_6band__all__incl"] : List String)) ∧
    ¬ (chart_not_available.data <:+:
        (get_all ["comp_pct_6band__all__incl"] "comp_pct_6band" false).data) := by
  exact ⟨by decide, by decide⟩

/-- Every per-section chart root has a grouping tag from `tags` and a
non-empty metric root. -/
theorem sectionCharts_tags :
    ∀ mt ∈ sec2Charts ++ sec3Charts ++ sec4Charts ++ sec5Charts,
      mt.2 ∈ tags ∧ mt.1 ≠ "" := by
  decide

set_option maxRecDepth 1000000 in
/-- C5 (amended): every registry key is either one of the four fixed
filter-independent map keys (which carry the empty suffix and no grouping
tag), or the per-combination `act_by_house` key with a non-empty filter
suffix (and no grouping tag), or parses by the grammar
`<metric>_<groupingTag><filterSuffix>` with `groupingTag ∈ {6band, 3tier}`
and a non-empty filter suffix; and the keys of a full run are pairwise
distinct (no two chart slots collide on the same key). -/
theorem registry_key_grammar :
    (∀ (hasCityMap hasPlzMap : Bool) (df : List Row) (k : String),
      k ∈ generatedKeys hasCityMap hasPlzMap df →
        k ∈ mapKeys true true ∨
        (∃ s ∈ filterSuffixes, k = "act_by_house" ++ s) ∨
        (∃ metric tag s, tag ∈ tags ∧ s ∈ filterSuffixes ∧ metric ≠ "" ∧
          k = metric ++ ("_" ++ tag ++ s))) ∧
    (generatedKeys true true dfFull).Nodup := by
  constructor
  · intro hc hp df k hk
    unfold generatedKeys at hk
    rcases List.mem_append.mp hk with hmap | hcombo
    · left
      revert hmap
      unfold mapKeys
      cases hc <;> cases hp <;> simp <;> tauto
    · right
      rcases List.mem_flatMap.mp hcombo with ⟨c, hcmem, hkc⟩
      have hsfx : comboSuffix c ∈ filterSuffixes :=
        List.mem_map_of_mem comboSuffix hcmem
      unfold comboKeys at hkc
      split at hkc
      · exact absurd hkc (List.not_mem_nil k)
      · split at hkc
        · simp only [List.mem_append, List.mem_map, List.mem_singleton] at hkc
          rcases hkc with ((⟨mt, hmt, rfl⟩ | rfl) | ⟨mt, hmt, rfl⟩) | ⟨mt, hmt, rfl⟩
          · have hmem : mt ∈ sec2Charts ++ sec3Charts ++ sec4Charts ++ sec5Charts := by
              rcases hmt with h | h <;> simp [h]
            rcases sectionCharts_tags mt hmem with ⟨htag, hne⟩
            exact Or.inr ⟨mt.1, mt.2, comboSuffix c, htag, hsfx, hne, rfl⟩
          · exact Or.inl ⟨comboSuffix c, hsfx, rfl⟩
          · have hmem : mt ∈ sec2Charts ++ sec3Charts ++ sec4Charts ++ sec5Charts := by
              simp [hmt]
            rcases sectionCharts_tags mt hmem with ⟨htag, hne⟩
            exact Or.inr ⟨mt.1, mt.2, comboSuffix c, htag, hsfx, hne, rfl⟩
          · have hmem : mt ∈ sec2Charts ++ sec3Charts ++ sec4Charts ++ sec5Charts := by
              simp [hmt]
            rcases sectionCharts_tags mt hmem with ⟨htag, hne⟩
            exact Or.inr ⟨mt.1, mt.2, comboSuffix c, htag, hsfx, hne, rfl⟩
        · simp only [List.append_nil, List.mem_append, List.mem_map,
            List.mem_singleton] at hkc
          rcases hkc with (⟨mt, hmt, rfl⟩ | rfl) | ⟨mt, hmt, rfl⟩
          · have hmem : mt ∈ sec2Charts ++ sec3Charts ++ sec4Charts ++ sec5Charts := by
              rcases hmt with h | h <;> simp [h]
            rcases sectionCharts_tags mt hmem with ⟨htag, hne⟩
            exact Or.inr ⟨mt.1, mt.2, comboSuffix c, htag, hsfx, hne, rfl⟩
          · exact Or.inl ⟨comboSuffix c, hsfx, rfl⟩
          · have hmem : mt ∈ sec2Charts ++ sec3Charts ++ sec4Charts ++ sec5Charts := by
              simp [hmt]
            rcases sectionCharts_tags mt hmem with ⟨htag, hne⟩
            exact Or.inr ⟨mt.1, mt.2, comboSuffix c, htag, hsfx, hne, rfl⟩
  · decide

/-- C5 (witness): the key `fts_6band__all__incl` is generated on the
sample dataset and falls in the grammar-parsable branch of the key
trichotomy. -/
theorem registry_key_grammar_witness :
    "fts_6band__all__incl" ∈ generatedKeys false false dfFull ∧
    ("fts_6band__all__incl" ∈ mapKeys true true ∨
     (∃ s ∈ filterSuffixes, "fts_6band__all__incl" = "act_by_house" ++ s) ∨
     (∃ metric tag s, tag ∈ tags ∧ s ∈ filterSuffixes ∧ metric ≠ "" ∧
       "fts_6band__all__incl" = metric ++ ("_" ++ tag ++ s))) :=
  ⟨by decide, registry_key_grammar.1 false false dfFull _ (by decide)⟩

set_option maxRecDepth 100000 in
/-- C5 (counterexample): the claim that *every* registry key parses by
the grammar `<metric>_<groupingTag><filterSuffix>` with
`groupingTag ∈ {6band, 3tier}` is false: the generated key
`act_by_house__all__incl` contains no grouping tag at all. -/
theorem act_by_house_key_not_parsable :
    "act_by_house__all__incl" ∈ generatedKeys false false dfFull ∧
    ¬ ParsableKey "act_by_house__all__incl" := by
  constructor
  · decide
  · rintro ⟨m, t, s, ht, hs, -, hk⟩
    have hts : tags = ["6band", "3tier"] := by decide
    have hfs : ("" :: filterSuffixes) =
        ["", "__all__incl", "__all__excl", "__ftb__incl", "__ftb__excl",
         "__rb__incl", "__rb__excl"] := by decide
    rw [hts] at ht
    rw [hfs] at hs
    have hsuffix := suffix_data_of_eq_append _ _ _ hk
    simp only [List.mem_cons, List.not_mem_nil, or_false] at ht hs
    rcases ht with rfl | rfl <;>
      rcases hs with rfl | rfl | rfl | rfl | rfl | rfl | rfl <;>
        exact absurd hsuffix (by decide)

/-- A distinct count never exceeds the number of values counted. -/
theorem nunique_le_length (ids : List Nat) : nunique ids ≤ ids.length :=
  ids.dedup_sublist.length_le

/-- C6: each merged city's coordinates are the population-weighted
centroid of its constituent groups, `Σ(lat_i * pop_i) / Σ(pop_i)` (and
likewise for longitude), and when the population sum is zero the result is
`NaN`/null (`none`) rather than a division error. -/
theorem merged_city_weighted_centroid (merge_map : List (String × String))
    (plz_df : List PlzGeo) (row : AggPlzRow) (h : row ∈ agg_plz merge_map plz_df) :
    (row.latitude =
      if ((constituentGroups merge_map plz_df row.group_key).map
          (fun r => r.population.getD 0)).sum = 0 then none
      else some (((constituentGroups merge_map plz_df row.group_key).map
          (fun r => r.latitude * r.population.getD 0)).sum /
        ((constituentGroups merge_map plz_df row.group_key).map
          (fun r => r.population.getD 0)).sum)) ∧
    (row.longitude =
      if ((constituentGroups merge_map plz_df row.group_key).map
          (fun r => r.population.getD 0)).sum = 0 then none
      else some (((constituentGroups merge_map plz_df row.group_key).map
          (fun r => r.longitude * r.population.getD 0)).sum /
        ((constituentGroups merge_map plz_df row.group_key).map
          (fun r => r.population.getD 0)).sum)) := by
  rcases List.mem_map.mp h with ⟨gk, -, rfl⟩
  constructor <;>
    by_cases hz : ((constituentGroups merge_map plz_df gk).map
      (fun r => r.population.getD 0)).sum = 0 <;>
      simp [hz]

/-- C7: every customer-count aggregate — per merged PLZ group, per city
(in the city performance aggregate), and per channel-platform — uses
distinct-count semantics, so the reported count is at most the number of
rows in the corresponding filtered group. -/
theorem distinct_counts_bounded :
    (∀ (merge_map : List (String × String)) (df : List Row) (p : String),
      plz_customers merge_map df p ≤ (plz_group merge_map df p).length) ∧
    (∀ (dff : List Row) (cc : CityCust), cc ∈ city_cust dff →
      cc.customers ≤ (dff.filter (fun r => r.city == cc.city)).length) ∧
    (∀ (dff : List Row) (cp : String),
      cp_customers dff cp ≤ (cp_group dff cp).length) := by
  refine ⟨?_, ?_, ?_⟩
  · intro mm df p
    have := nunique_le_length ((plz_group mm df p).map (fun r => r.customer_id))
    simpa using this
  · intro dff cc hcc
    rcases List.mem_map.mp hcc with ⟨c, -, rfl⟩
    have := nunique_le_length
      ((dff.filter (fun r => r.city == c)).map (fun r => r.customer_id))
    simpa using this
  · intro dff cp
    have := nunique_le_length ((cp_group dff cp).map (fun r => r.customer_id))
    simpa using this

/-- C8: revenue-per-customer for a category with zero distinct
customers is 0 — the `replace(0, nan)` / `fillna(0)` chain turns the
would-be division by zero into 0, not an error and not a propagated NaN. -/
theorem spc_zero_customers (revenue : ℚ) : spc revenue 0 = 0 := by
  simp [spc, divByCustomers, round2, roundHalfEven]

/-- Evaluation of the per-city aggregate on the sample dataset. -/
theorem city_cust_sample_eval :
    city_cust dfFull =
      [{ city := "Berlin", customers := 1, revenue := 10 },
       { city := "Hamburg", customers := 1, revenue := 20 }] := by
  simp +decide [city_cust, dfFull, nunique, List.dedup_cons_of_not_mem,
    List.dedup_nil, List.filter]

/-- Evaluation of the sample city performance table: Hamburg (population
2000) ranks above Berlin (population 1000). -/
theorem city_tbl_sample_eval :
    city_tbl sampleCityPop dfFull = [sampleCityRowHamburg, sampleCityRowBerlin] := by
  have h1 : city_join sampleCityPop dfFull =
      [sampleCityRowBerlin, sampleCityRowHamburg] := by
    rw [city_join, city_cust_sample_eval]
    simp +decide [sampleCityPop, List.find?, List.filterMap]
    norm_num [sampleCityRowBerlin, sampleCityRowHamburg, round2, roundHalfEven]
  rw [city_tbl, h1]
  norm_num [List.insertionSort, List.orderedInsert, popDescOrder,
    sampleCityRowBerlin, sampleCityRowHamburg]

/-- Evaluation of the merged-city aggregate on the sample geo dataset. -/
theorem agg_plz_sample_eval :
    agg_plz sampleMergeMap samplePlzGeo = [sampleAggRow] := by
  have hberlin : constituentGroups sampleMergeMap samplePlzGeo "Berlin" =
      samplePlzGeo := by
    simp +decide [constituentGroups, group_key, samplePlzGeo, sampleMergeMap,
      List.filter, List.lookup]
  rw [agg_plz]
  rw [show (samplePlzGeo.map
      (fun r => group_key sampleMergeMap r.plz_three_digits)).dedup = ["Berlin"] by
    simp +decide [samplePlzGeo, sampleMergeMap, group_key, List.lookup,
      List.dedup_cons_of_mem, List.dedup_nil]]
  rw [List.map_singleton, hberlin]
  norm_num [samplePlzGeo, sampleAggRow]

/-- C6 (witness): on the sample merge of PLZ groups 101 and 102 into
Berlin, the aggregate row is generated and its coordinates are the
population-weighted centroid (5/2, 7/2), not the simple mean (2, 3). -/
theorem merged_city_weighted_centroid_witness :
    sampleAggRow ∈ agg_plz sampleMergeMap samplePlzGeo ∧
    sampleAggRow.latitude = some (5 / 2) ∧ sampleAggRow.longitude = some (7 / 2) := by
  have hmem : sampleAggRow ∈ agg_plz sampleMergeMap samplePlzGeo := by
    rw [agg_plz_sample_eval]
    exact List.mem_singleton.mpr rfl
  have h := merged_city_weighted_centroid sampleMergeMap samplePlzGeo sampleAggRow hmem
  exact ⟨hmem, rfl, rfl⟩

/-- C7 (witness): the Berlin aggregate of the sample dataset reports 1
distinct customer, which is at most the 1 matching row. -/
theorem distinct_counts_bounded_witness :
    ({ city := "Berlin", customers := 1, revenue := 10 } : CityCust) ∈ city_cust dfFull ∧
    ({ city := "Berlin", customers := 1, revenue := 10 } : CityCust).customers ≤
      (dfFull.filter (fun r =>
        r.city == ({ city := "Berlin", customers := 1, revenue := 10 } : CityCust).city)).length := by
  have hmem : ({ city := "Berlin", customers := 1, revenue := 10 } : CityCust) ∈
      city_cust dfFull := by
    rw [city_cust_sample_eval]
    exact List.mem_cons_self _ _
  exact ⟨hmem, distinct_counts_bounded.2.1 dfFull _ hmem⟩

/-- C3 (amended): the city performance table is the inner join of the
city-population table with the per-city aggregates, truncated to at most 20
rows after sorting by population descending (a joined city with higher
population than any table row is itself in the table, regardless of
customer counts), and each row's `activation` and `rev_per_1k` are the
claimed ratios rounded half-to-even at two decimal places by `.round(2)`. -/
theorem city_table_spec (city_pop : List CityPop) (dff : List Row) :
    (city_tbl city_pop dff).length ≤ 20 ∧
    (city_tbl city_pop dff).Pairwise popDescOrder ∧
    (∀ a ∈ city_join city_pop dff, ∀ b ∈ city_tbl city_pop dff,
      b.population < a.population → a ∈ city_tbl city_pop dff) ∧
    (∀ row ∈ city_tbl city_pop dff,
      row.activation = round2 ((row.customers : ℚ) / (row.population / 1000)) ∧
      row.rev_per_1k = round2 (row.revenue / (row.population / 1000))) := by
  have hsorted : List.Sorted popDescOrder
      (List.insertionSort popDescOrder (city_join city_pop dff)) :=
    List.sorted_insertionSort popDescOrder _
  have hperm : List.Perm (List.insertionSort popDescOrder (city_join city_pop dff))
      (city_join city_pop dff) :=
    List.perm_insertionSort popDescOrder _
  refine ⟨?_, ?_, ?_, ?_⟩
  · unfold city_tbl
    exact List.length_take_le 20 _
  · unfold city_tbl
    exact hsorted.sublist (List.take_sublist 20 _)
  · intro a ha b hb hlt
    unfold city_tbl at hb ⊢
    have has : a ∈ List.insertionSort popDescOrder (city_join city_pop dff) :=
      hperm.symm.subset ha
    by_cases htake : a ∈ (List.insertionSort popDescOrder (city_join city_pop dff)).take 20
    · exact htake
    · exfalso
      have hdrop : a ∈ (List.insertionSort popDescOrder (city_join city_pop dff)).drop 20 := by
        rw [← List.take_append_drop 20
          (List.insertionSort popDescOrder (city_join city_pop dff))] at has
        rcases List.mem_append.mp has with h | h
        · exact absurd h htake
        · exact h
      have hpair : popDescOrder b a := by
        have hps := hsorted
        rw [List.Sorted, ← List.take_append_drop 20
          (List.insertionSort popDescOrder (city_join city_pop dff)),
          List.pairwise_append] at hps
        exact hps.2.2 b hb a hdrop
      exact absurd hpair (not_le.mpr hlt)
  · intro row hrow
    have hjoin : row ∈ city_join city_pop dff :=
      hperm.subset (List.take_subset 20 _ hrow)
    rcases List.mem_filterMap.mp hjoin with ⟨p, -, hmap⟩
    rcases Option.map_eq_some'.mp hmap with ⟨x, -, hmk⟩
    subst hmk
    exact ⟨rfl, rfl⟩

/-- C3 (witness): on the sample data the table is [Hamburg, Berlin]
(population order), and the Hamburg row's activation is the rounded ratio. -/
theorem city_table_spec_witness :
    sampleCityRowHamburg ∈ city_tbl sampleCityPop dfFull ∧
    sampleCityRowHamburg.activation =
      round2 ((sampleCityRowHamburg.customers : ℚ) /
        (sampleCityRowHamburg.population / 1000)) := by
  have hmem : sampleCityRowHamburg ∈ city_tbl sampleCityPop dfFull := by
    rw [city_tbl_sample_eval]
    exact List.mem_cons_self _ _
  exact ⟨hmem, ((city_table_spec sampleCityPop dfFull).2.2.2 sampleCityRowHamburg hmem).1⟩

/-- C3 (counterexample): the claim that `activation` *equals*
`customers / (population / 1000)` exactly is false: for one customer in a
city of population 3000 the exact ratio is 1/3, but the emitted activation
is the two-decimal rounding 0.33. -/
theorem city_table_activation_not_exact :
    (city_tbl fractionalCityPop [fractionalRow]).map (fun r => r.activation) =
      [33 / 100] ∧
    ¬ ((33 : ℚ) / 100 = (1 : ℚ) / (3000 / 1000)) := by
  constructor
  · have hcc : city_cust [fractionalRow] = [{ city := "X", customers := 1, revenue := 1 }] := by
      simp +decide [city_cust, fractionalRow, nunique, List.dedup_cons_of_not_mem,
        List.dedup_nil, List.filter]
    have h1 : city_join fractionalCityPop [fractionalRow] =
        [{ city := "X", population := 3000, customers := 1, revenue := 1,
           activation := 33 / 100, rev_per_1k := 33 / 100 }] := by
      rw [city_join, hcc]
      simp +decide [fractionalCityPop, List.find?, List.filterMap]
      norm_num [round2, roundHalfEven]
    rw [city_tbl, h1]
    norm_num [List.insertionSort, List.orderedInsert]
  · norm_num

/-- C10: the city performance table join is an inner join: every row of
the table corresponds to a city with at least one transaction row in the
current strict view (so a zero-customer city from the population table
never appears, freeing its slot for a lower-population city), and its
distinct-customer count is at least 1. -/
theorem city_table_inner_join (city_pop : List CityPop) (dff : List Row)
    (row : CityRow) (h : row ∈ city_tbl city_pop dff) :
    (∃ r ∈ dff, r.city = row.city) ∧ 1 ≤ row.customers := by
  have hperm : List.Perm (List.insertionSort popDescOrder (city_join city_pop dff))
      (city_join city_pop dff) :=
    List.perm_insertionSort popDescOrder _
  have hjoin : row ∈ city_join city_pop dff :=
    hperm.subset (List.take_subset 20 _ h)
  rcases List.mem_filterMap.mp hjoin with ⟨p, -, hmap⟩
  rcases Option.map_eq_some'.mp hmap with ⟨x, hfind, hmk⟩
  have hx : x ∈ city_cust dff := List.mem_of_find?_eq_some hfind
  have hbeq := List.find?_some hfind
  have hcity : x.city = p.city := by simpa using hbeq
  rcases List.mem_map.mp hx with ⟨c, hcdedup, rfl⟩
  have hc : c = p.city := by simpa using hcity
  rcases List.mem_map.mp (List.mem_dedup.mp hcdedup) with ⟨r, hr, hrc⟩
  have hrfil : r ∈ dff.filter (fun q => q.city == c) :=
    List.mem_filter.mpr ⟨hr, by simp [hrc]⟩
  constructor
  · refine ⟨r, hr, ?_⟩
    subst hmk
    simpa [hrc] using hc
  · subst hmk
    have hne : (dff.filter (fun q => q.city == c)).map (fun q => q.customer_id) ≠ [] := by
      simp only [ne_eq, List.map_eq_nil_iff]
      exact List.ne_nil_of_mem hrfil
    have hpos : 0 < nunique ((dff.filter (fun q => q.city == c)).map
        (fun q => q.customer_id)) := by
      unfold nunique
      apply List.length_pos.mpr
      simpa [List.dedup_eq_nil] using hne
    simpa using hpos

/-- C10 (witness): the Hamburg table row on the sample data comes from
an actual Hamburg transaction and reports at least one customer. -/
theorem city_table_inner_join_witness :
    sampleCityRowHamburg ∈ city_tbl sampleCityPop dfFull ∧
    ((∃ r ∈ dfFull, r.city = sampleCityRowHamburg.city) ∧
      1 ≤ sampleCityRowHamburg.customers) := by
  have hmem : sampleCityRowHamburg ∈ city_tbl sampleCityPop dfFull := by
    rw [city_tbl_sample_eval]
    exact List.mem_cons_self _ _
  exact ⟨hmem, city_table_inner_join sampleCityPop dfFull sampleCityRowHamburg hmem⟩

/-- C9: the pipeline is a pure function of its input — running it on
equal inputs yields identical registry keys and identical city-table
aggregates (no run-specific state enters the computation). -/
theorem pipeline_deterministic (hasCityMap hasPlzMap : Bool) (df₁ df₂ : List Row)
    (cp₁ cp₂ : List CityPop) (hdf : df₁ = df₂) (hcp : cp₁ = cp₂) :
    pipelineRun hasCityMap hasPlzMap df₁ cp₁ = pipelineRun hasCityMap hasPlzMap df₂ cp₂ := by
  rw [hdf, hcp]

/-- C9 (witness): two runs on the sample input coincide. -/
theorem pipeline_deterministic_witness :
    pipelineRun true true dfFull sampleCityPop =
      pipelineRun true true dfFull sampleCityPop :=
  pipeline_deterministic true true dfFull dfFull sampleCityPop sampleCityPop rfl rfl
